import Mathlib

/-!
Shallow embedding of the vizcor-fe event-sourcing engine:
the hierarchy reducer (src/src/hooks/use-enhanced-hierarchy.ts),
the event normalizer and tree builder (src/lib utilities),
and the timeline statistics (src/src/hooks/use-timeline.ts).
JS `Map<string, HierarchyNode>` is modelled as an insertion-ordered
association list with JS `Map.set` semantics; JS numbers that the
claims treat as integers are modelled as `Int`, and the timeline's
arithmetic as rationals.
-/

namespace Vizcor

/-- Enum `CoroutineState` from src/src/types/api.ts. -/
inductive CoroutineState
  | CREATED
  | ACTIVE
  | SUSPENDED
  | WAITING_FOR_CHILDREN
  | COMPLETED
  | CANCELLED
  | FAILED
deriving DecidableEq

/-- Structure `HierarchyNode` from src/src/types/api.ts.  Optional TS fields are
`Option`s; numeric fields are `Int`. -/
structure HierarchyNode where
  id : String
  parentId : Option String
  children : List String
  name : String
  scopeId : String
  state : CoroutineState
  createdAtNanos : Int
  completedAtNanos : Option Int := none
  currentThreadId : Option Int := none
  currentThreadName : Option String := none
  dispatcherId : Option String := none
  dispatcherName : Option String := none
  jobId : String
  activeChildrenIds : Option (List String) := none
  activeChildrenCount : Option Int := none
deriving DecidableEq

/-- The fields shared by every coroutine event (`CoroutineEvent` in
src/src/types/api.ts). -/
structure CoroutineFields where
  sessionId : String
  seq : Int
  tsNanos : Int
  coroutineId : String
  jobId : String
  parentCoroutineId : Option String
  scopeId : String
  label : Option String
deriving DecidableEq

/-- The discriminated `VizEvent` union, one constructor per `case` of the
reducer's `switch` in use-enhanced-hierarchy.ts; `other` covers every kind
the switch does not handle (JobCancellationRequested, deferred events, ...). -/
inductive VizEvent
  | created (c : CoroutineFields)
  | started (c : CoroutineFields)
  | suspended (c : CoroutineFields)
  | resumed (c : CoroutineFields)
  | bodyCompleted (c : CoroutineFields)
  | waitingForChildren (c : CoroutineFields) (activeChildrenCount : Int)
      (activeChildrenIds : List String)
  | jobStateChanged (c : CoroutineFields) (isActive : Bool) (isCompleted : Bool)
      (isCancelled : Bool) (childrenCount : Int)
  | completed (c : CoroutineFields)
  | cancelled (c : CoroutineFields)
  | failed (c : CoroutineFields)
  | threadAssigned (c : CoroutineFields) (threadId : Int) (threadName : String)
  | dispatcherSelected (c : CoroutineFields) (dispatcherId : String)
      (dispatcherName : String)
  | other (c : CoroutineFields)
deriving DecidableEq

/-- The base fields of an event, uniform across constructors. -/
def VizEvent.base : VizEvent → CoroutineFields
  | .created c => c
  | .started c => c
  | .suspended c => c
  | .resumed c => c
  | .bodyCompleted c => c
  | .waitingForChildren c _ _ => c
  | .jobStateChanged c _ _ _ _ => c
  | .completed c => c
  | .cancelled c => c
  | .failed c => c
  | .threadAssigned c _ _ => c
  | .dispatcherSelected c _ _ => c
  | .other c => c

/-- The node map: a JS `Map<string, HierarchyNode>` as an insertion-ordered
association list. -/
abbrev NodeMap := List (String × HierarchyNode)

/-- JS `map.get(key)` (first entry with the key). -/
def mget : NodeMap → String → Option HierarchyNode
  | [], _ => none
  | (k, v) :: rest, key => if k = key then some v else mget rest key

/-- JS `map.set(key, v)`: replace in place when present, append otherwise. -/
def mset : NodeMap → String → HierarchyNode → NodeMap
  | [], key, v => [(key, v)]
  | (k, w) :: rest, key, v =>
      if k = key then (key, v) :: rest else (k, w) :: mset rest key v

/-- The reducer's recurring guard pattern
`const node = map.get(id); if (node) { map.set(id, f(node)) }`. -/
def updAt (m : NodeMap) (key : String) (f : HierarchyNode → HierarchyNode) : NodeMap :=
  match mget m key with
  | some n => mset m key (f n)
  | none => m

/-- JS truthiness of a nullable string (`null` and `""` are falsy). -/
def truthyStr : Option String → Bool
  | some s => s ≠ ""
  | none => false

/-- JS `a || b` on a nullable string with a string default, as in
`event.label || event.coroutineId`. -/
def strOr (o : Option String) (d : String) : String :=
  match o with
  | some s => if s = "" then d else s
  | none => d

/-- Check `['ACTIVE', 'SUSPENDED', 'CREATED'].includes(state)` from the
body-completed case. -/
def isActiveChildState : CoroutineState → Bool
  | .ACTIVE => true
  | .SUSPENDED => true
  | .CREATED => true
  | _ => false

/-- A terminal lifecycle state (COMPLETED / CANCELLED / FAILED). -/
def isTerminal : CoroutineState → Bool
  | .COMPLETED => true
  | .CANCELLED => true
  | .FAILED => true
  | _ => false

/-- The `const newNode = {...}` literal of the coroutine.created case. -/
def createdNode (c : CoroutineFields) : HierarchyNode :=
  { id := c.coroutineId
    parentId := c.parentCoroutineId
    children := []
    name := strOr c.label c.coroutineId
    scopeId := c.scopeId
    state := .CREATED
    createdAtNanos := c.tsNanos
    jobId := c.jobId
    activeChildrenIds := some []
    activeChildrenCount := some 0 }

/-- The arrow function of the body-completed case: is the child with this id
present and in `['ACTIVE', 'SUSPENDED', 'CREATED']`? -/
def childActive (prev : NodeMap) (childId : String) : Bool :=
  match mget prev childId with
  | some child => isActiveChildState child.state
  | none => false

/-- Function `handleEvent` of use-enhanced-hierarchy.ts: the reducer applied to the
current map (the `setNodes(prev => ...)` body), one branch per `case`. -/
def handleEvent (event : VizEvent) (prev : NodeMap) : NodeMap :=
  match event with
  | .created c =>
      let m1 := mset prev c.coroutineId (createdNode c)
      if truthyStr c.parentCoroutineId then
        match mget m1 (c.parentCoroutineId.getD "") with
        | some parent =>
            if c.coroutineId ∈ parent.children then m1
            else mset m1 (c.parentCoroutineId.getD "")
              { parent with children := parent.children ++ [c.coroutineId] }
        | none => m1
      else m1
  | .started c =>
      updAt prev c.coroutineId (fun node => { node with state := .ACTIVE })
  | .suspended c =>
      updAt prev c.coroutineId (fun node => { node with state := .SUSPENDED })
  | .resumed c =>
      updAt prev c.coroutineId (fun node => { node with state := .ACTIVE })
  | .bodyCompleted c =>
      updAt prev c.coroutineId (fun node =>
        let hasActiveChildren := node.children.any (childActive prev)
        { node with
            state := if hasActiveChildren then .WAITING_FOR_CHILDREN else node.state })
  | .waitingForChildren c cnt ids =>
      updAt prev c.coroutineId (fun node =>
        { node with
            state := .WAITING_FOR_CHILDREN
            activeChildrenIds := some ids
            activeChildrenCount := some cnt })
  | .jobStateChanged c isActive isCompleted isCancelled childrenCount =>
      updAt prev c.coroutineId (fun node =>
        let newState : CoroutineState :=
          if isCancelled then .CANCELLED
          else if isCompleted then .COMPLETED
          else if !isActive && childrenCount > 0 then .WAITING_FOR_CHILDREN
          else if isActive then .ACTIVE
          else node.state
        { node with
            state := newState
            activeChildrenCount :=
              if newState = .WAITING_FOR_CHILDREN then some childrenCount
              else node.activeChildrenCount })
  | .completed c =>
      updAt prev c.coroutineId (fun node =>
        { node with
            state := .COMPLETED
            completedAtNanos := some c.tsNanos
            activeChildrenCount := some 0
            activeChildrenIds := some [] })
  | .cancelled c =>
      updAt prev c.coroutineId (fun node =>
        { node with
            state := .CANCELLED
            completedAtNanos := some c.tsNanos
            activeChildrenCount := some 0
            activeChildrenIds := some [] })
  | .failed c =>
      updAt prev c.coroutineId (fun node =>
        { node with
            state := .FAILED
            completedAtNanos := some c.tsNanos
            activeChildrenCount := some 0
            activeChildrenIds := some [] })
  | .threadAssigned c threadId threadName =>
      updAt prev c.coroutineId (fun node =>
        { node with
            currentThreadId := some threadId
            currentThreadName := some threadName })
  | .dispatcherSelected c dispatcherId dispatcherName =>
      updAt prev c.coroutineId (fun node =>
        { node with
            dispatcherId := some dispatcherId
            dispatcherName := some dispatcherName })
  | .other _ => prev

/-- Loop `events.forEach(handleEvent)` starting from a given map. -/
def applyEvents (events : List VizEvent) (m : NodeMap) : NodeMap :=
  events.foldl (fun acc e => handleEvent e acc) m

/-! ## Map-model lemmas -/

theorem mget_mset_self (m : NodeMap) (k : String) (v : HierarchyNode) :
    mget (mset m k v) k = some v := by
  induction m with
  | nil => simp [mget, mset]
  | cons p rest ih =>
      obtain ⟨a, w⟩ := p
      by_cases h : a = k
      · simp [mset, h, mget]
      · simp [mset, h, mget, ih]

theorem mget_mset_ne (m : NodeMap) (k k' : String) (v : HierarchyNode) (h : k' ≠ k) :
    mget (mset m k v) k' = mget m k' := by
  induction m with
  | nil => simp [mget, mset, Ne.symm h]
  | cons p rest ih =>
      obtain ⟨a, w⟩ := p
      by_cases hak : a = k
      · simp [mset, hak, mget, Ne.symm h]
      · simp [mset, hak, mget, ih]

theorem mset_mset_self (m : NodeMap) (k : String) (v w : HierarchyNode) :
    mset (mset m k v) k w = mset m k w := by
  induction m with
  | nil => simp [mset]
  | cons p rest ih =>
      obtain ⟨a, b⟩ := p
      by_cases h : a = k
      · simp [mset, h]
      · simp [mset, h, ih]

theorem mset_of_mget (m : NodeMap) (k : String) (v : HierarchyNode)
    (h : mget m k = some v) : mset m k v = m := by
  induction m with
  | nil => simp [mget] at h
  | cons p rest ih =>
      obtain ⟨a, b⟩ := p
      by_cases hak : a = k
      · subst hak
        simp [mget] at h
        simp [mset, h]
      · simp [mget, hak] at h
        simp [mset, hak, ih h]

theorem mget_updAt_self (m : NodeMap) (k : String) (f : HierarchyNode → HierarchyNode) :
    mget (updAt m k f) k = (mget m k).map f := by
  cases h : mget m k with
  | none => simp [updAt, h]
  | some n => simp [updAt, h, mget_mset_self]

theorem mget_updAt_ne (m : NodeMap) (k k' : String) (f : HierarchyNode → HierarchyNode)
    (h : k' ≠ k) : mget (updAt m k f) k' = mget m k' := by
  cases hm : mget m k with
  | none => simp [updAt, hm]
  | some n => simp [updAt, hm, mget_mset_ne _ _ _ _ h]

theorem updAt_updAt_self (m : NodeMap) (k : String) (f : HierarchyNode → HierarchyNode)
    (hf : ∀ n, f (f n) = f n) :
    updAt (updAt m k f) k f = updAt m k f := by
  cases h : mget m k with
  | none => simp [updAt, h]
  | some n =>
      have h1 : updAt m k f = mset m k (f n) := by simp [updAt, h]
      rw [h1]
      simp [updAt, mget_mset_self, mset_mset_self, hf n]

theorem updAt_of_mget_none (m : NodeMap) (k : String) (f : HierarchyNode → HierarchyNode)
    (h : mget m k = none) : updAt m k f = m := by
  simp [updAt, h]

/-! ## Event normalizer (src/unnamed/part_006: `normalizeEvent`, `eventTypeToKind`) -/

/-- A raw wire record: possibly a `kind`, possibly a legacy `type`, plus the
remaining payload fields, which normalization carries through untouched. -/
structure RawRecord where
  kind : Option String := none
  type : Option String := none
  fields : List (String × String) := []
deriving DecidableEq

/-- The fixed `EVENT_TYPE_TO_KIND` lookup table. -/
def EVENT_TYPE_TO_KIND : List (String × String) :=
  [ ("CoroutineCreated", "coroutine.created")
  , ("CoroutineStarted", "coroutine.started")
  , ("CoroutineSuspended", "coroutine.suspended")
  , ("CoroutineResumed", "coroutine.resumed")
  , ("CoroutineBodyCompleted", "coroutine.body-completed")
  , ("CoroutineCompleted", "coroutine.completed")
  , ("CoroutineCancelled", "coroutine.cancelled")
  , ("CoroutineFailed", "coroutine.failed")
  , ("ThreadAssigned", "thread.assigned")
  , ("DispatcherSelected", "DispatcherSelected")
  , ("DeferredValueAvailable", "DeferredValueAvailable")
  , ("DeferredAwaitStarted", "DeferredAwaitStarted")
  , ("DeferredAwaitCompleted", "DeferredAwaitCompleted")
  , ("JobStateChanged", "JobStateChanged")
  , ("JobCancellationRequested", "JobCancellationRequested")
  , ("JobJoinRequested", "JobJoinRequested")
  , ("JobJoinCompleted", "JobJoinCompleted") ]

/-- Lookup `EVENT_TYPE_TO_KIND[type] || type` (every table value is a non-empty
string, so JS falsiness coincides with absence). -/
def eventTypeToKind (t : String) : String :=
  match EVENT_TYPE_TO_KIND.lookup t with
  | some k => k
  | none => t

/-- Function `normalizeEvent`: pass through when `kind` is truthy; otherwise
substitute `kind` from a truthy `type` and delete `type`; otherwise return
the record as-is. -/
def normalizeEvent (event : RawRecord) : RawRecord :=
  if truthyStr event.kind then event
  else if truthyStr event.type then
    { event with kind := some (eventTypeToKind (event.type.getD "")), type := none }
  else event

/-! ## Tree builder (src/unnamed/part_006: `buildCoroutineTree`) -/

/-- The `{ id, parentId }` records `buildCoroutineTree` consumes. -/
structure FlatNode where
  id : String
  parentId : Option String
deriving DecidableEq

/-- The nested tree `buildCoroutineTree` produces. -/
inductive CoroutineTree
  | node (id : String) (parentId : Option String) (children : List CoroutineTree)

/-- Test `nodeMap.has(pid)` over the input array. -/
def hasId (nodes : List FlatNode) (pid : String) : Bool :=
  nodes.any fun n => n.id == pid

/-- The subtree rooted at one record: its children are, in array order, the
records whose truthy `parentId` equals this record's id.  The JS original
grows the same structure by pushing aliased map entries inside one
`forEach`; the fuel argument (always called with the array length) makes
that recursion structural and agrees with the JS result on acyclic input. -/
def buildSubtree (nodes : List FlatNode) : Nat → FlatNode → CoroutineTree
  | 0, n => .node n.id n.parentId []
  | fuel + 1, n =>
      .node n.id n.parentId
        ((nodes.filter fun c => truthyStr c.parentId && (c.parentId == some n.id)).map
          (buildSubtree nodes fuel))

/-- Function `buildCoroutineTree`: roots are the records whose `parentId` is falsy or
names no record in the array (temporary roots), each expanded to its
subtree. -/
def buildCoroutineTree (nodes : List FlatNode) : List CoroutineTree :=
  (nodes.filter fun n => !(truthyStr n.parentId && hasId nodes (n.parentId.getD ""))).map
    (buildSubtree nodes nodes.length)

/-- Projection `Array.from(map.values())` restricted to the `{ id, parentId }` shape
that `buildCoroutineTree` reads. -/
def mapRecords (m : NodeMap) : List FlatNode :=
  m.map fun kv => { id := kv.2.id, parentId := kv.2.parentId }

/-! ## Timeline statistics (src/src/hooks/use-timeline.ts: `useTimelineStats`) -/

/-- One event of a coroutine's timeline, restricted to the fields
`useTimelineStats` reads. -/
structure TimelineEvent where
  seq : Int
  timestamp : Int
  kind : String
  duration : Option ℚ := none
deriving DecidableEq

/-- Structure `CoroutineTimeline`: the backend-computed aggregate fields plus the
event list.  JS numbers are modelled as rationals. -/
structure CoroutineTimeline where
  totalDuration : ℚ
  activeTime : ℚ
  suspendedTime : ℚ
  events : List TimelineEvent
deriving DecidableEq

/-- The record `useTimelineStats` returns. -/
structure TimelineStats where
  totalDuration : ℚ
  activeTime : ℚ
  suspendedTime : ℚ
  activePercent : ℚ
  suspendedPercent : ℚ
  suspensionCount : Nat
  dispatcherSwitches : Nat
  threadSwitches : Nat
  avgSuspensionDuration : ℚ
deriving DecidableEq

/-- Function `useTimelineStats` (the memoized body): all-zero record for an undefined
timeline, otherwise counts plus guarded percentage computations. -/
def useTimelineStats : Option CoroutineTimeline → TimelineStats
  | none =>
      { totalDuration := 0, activeTime := 0, suspendedTime := 0
        activePercent := 0, suspendedPercent := 0, suspensionCount := 0
        dispatcherSwitches := 0, threadSwitches := 0, avgSuspensionDuration := 0 }
  | some timeline =>
      let suspensionEvents := timeline.events.filter fun e => e.kind == "coroutine.suspended"
      let dispatcherEvents := timeline.events.filter fun e => e.kind == "DispatcherSelected"
      let threadEvents := timeline.events.filter fun e => e.kind == "thread.assigned"
      let suspensionDurations := (suspensionEvents.map (fun e => e.duration)).filterMap id
      let avgSuspensionDuration : ℚ :=
        if suspensionDurations.length > 0 then
          suspensionDurations.foldl (fun sum d => sum + d) 0 / suspensionDurations.length
        else 0
      let activePercent : ℚ :=
        if timeline.totalDuration > 0 then
          timeline.activeTime / timeline.totalDuration * 100
        else 0
      let suspendedPercent : ℚ :=
        if timeline.totalDuration > 0 then
          timeline.suspendedTime / timeline.totalDuration * 100
        else 0
      { totalDuration := timeline.totalDuration
        activeTime := timeline.activeTime
        suspendedTime := timeline.suspendedTime
        activePercent := activePercent
        suspendedPercent := suspendedPercent
        suspensionCount := suspensionEvents.length
        dispatcherSwitches := dispatcherEvents.length
        threadSwitches := threadEvents.length
        avgSuspensionDuration := avgSuspensionDuration }

/-! ## Claims -/

/-- The state recorded for an id in a map, when present. -/
def stateAt (m : NodeMap) (k : String) : Option CoroutineState :=
  (mget m k).map HierarchyNode.state

/-- Event kinds whose handler can never leave a non-terminal state on a node
that was terminal: the three terminal events, the field-only updates, the
unhandled kinds, and JobStateChanged when isCancelled or isCompleted is set. -/
def preservesTerminality : VizEvent → Bool
  | .completed _ => true
  | .cancelled _ => true
  | .failed _ => true
  | .threadAssigned _ _ _ => true
  | .dispatcherSelected _ _ _ => true
  | .other _ => true
  | .jobStateChanged _ _ isCompleted isCancelled _ => isCancelled || isCompleted
  | _ => false

/-- Concrete fixtures used by counterexamples and witnesses. -/
def csA : CoroutineFields :=
  { sessionId := "s", seq := 1, tsNanos := 10, coroutineId := "a", jobId := "j"
    parentCoroutineId := none, scopeId := "sc", label := none }

def csX : CoroutineFields :=
  { sessionId := "s", seq := 2, tsNanos := 20, coroutineId := "x", jobId := "j"
    parentCoroutineId := none, scopeId := "sc", label := none }

/-- A one-node map holding `a` in state CREATED. -/
def mA : NodeMap := handleEvent (VizEvent.created csA) []

/-- Map `mA` after `coroutine.completed`: node `a` is terminal. -/
def mTerm : NodeMap := handleEvent (VizEvent.completed csA) mA

/-- The node stored for `a` in `mTerm`. -/
def nodeATerminal : HierarchyNode :=
  { createdNode csA with
      state := CoroutineState.COMPLETED
      completedAtNanos := some 10
      activeChildrenCount := some 0
      activeChildrenIds := some [] }

/-- C1 counterexample: node `a` is COMPLETED (terminal), yet a later
coroutine.started event for `a` moves it back to ACTIVE (non-terminal) —
the reducer has no terminal-state guard. -/
theorem C1_counterexample :
    stateAt mTerm "a" = some CoroutineState.COMPLETED ∧
    isTerminal CoroutineState.COMPLETED = true ∧
    stateAt (handleEvent (VizEvent.started csA) mTerm) "a" = some CoroutineState.ACTIVE ∧
    isTerminal CoroutineState.ACTIVE = false := by
  exact ⟨by decide, rfl, by decide, rfl⟩

/-- C1 amended: only the terminal events, thread.assigned,
DispatcherSelected, unhandled kinds, and JobStateChanged carrying
isCancelled or isCompleted leave a terminal node terminal; the remaining
kinds (started, resumed, suspended, WaitingForChildren, created,
body-completed with an active child, JobStateChanged with only isActive)
can move it back to a non-terminal state. -/
theorem C1_terminality_for_guarded_kinds (e : VizEvent) (m : NodeMap) (k : String)
    (n n' : HierarchyNode) (hsafe : preservesTerminality e = true)
    (hn : mget m k = some n) (ht : isTerminal n.state = true)
    (hn' : mget (handleEvent e m) k = some n') :
    isTerminal n'.state = true := by
  cases e with
  | created c => simp [preservesTerminality] at hsafe
  | started c => simp [preservesTerminality] at hsafe
  | suspended c => simp [preservesTerminality] at hsafe
  | resumed c => simp [preservesTerminality] at hsafe
  | bodyCompleted c => simp [preservesTerminality] at hsafe
  | waitingForChildren c cnt ids => simp [preservesTerminality] at hsafe
  | jobStateChanged c a co ca cc =>
      by_cases hk : k = c.coroutineId
      · subst hk
        cases ca with
        | true =>
            simp [handleEvent, mget_updAt_self, hn] at hn'
            simp [← hn', isTerminal]
        | false =>
            cases co with
            | false => simp [preservesTerminality] at hsafe
            | true =>
                simp [handleEvent, mget_updAt_self, hn] at hn'
                simp [← hn', isTerminal]
      · rw [show handleEvent (VizEvent.jobStateChanged c a co ca cc) m =
            updAt m c.coroutineId _ from rfl, mget_updAt_ne _ _ _ _ hk, hn] at hn'
        cases hn'
        exact ht
  | completed c =>
      by_cases hk : k = c.coroutineId
      · subst hk
        simp [handleEvent, mget_updAt_self, hn] at hn'
        simp [← hn', isTerminal]
      · rw [show handleEvent (VizEvent.completed c) m =
            updAt m c.coroutineId _ from rfl, mget_updAt_ne _ _ _ _ hk, hn] at hn'
        cases hn'
        exact ht
  | cancelled c =>
      by_cases hk : k = c.coroutineId
      · subst hk
        simp [handleEvent, mget_updAt_self, hn] at hn'
        simp [← hn', isTerminal]
      · rw [show handleEvent (VizEvent.cancelled c) m =
            updAt m c.coroutineId _ from rfl, mget_updAt_ne _ _ _ _ hk, hn] at hn'
        cases hn'
        exact ht
  | failed c =>
      by_cases hk : k = c.coroutineId
      · subst hk
        simp [handleEvent, mget_updAt_self, hn] at hn'
        simp [← hn', isTerminal]
      · rw [show handleEvent (VizEvent.failed c) m =
            updAt m c.coroutineId _ from rfl, mget_updAt_ne _ _ _ _ hk, hn] at hn'
        cases hn'
        exact ht
  | threadAssigned c tid tname =>
      by_cases hk : k = c.coroutineId
      · subst hk
        simp [handleEvent, mget_updAt_self, hn] at hn'
        simpa [← hn'] using ht
      · rw [show handleEvent (VizEvent.threadAssigned c tid tname) m =
            updAt m c.coroutineId _ from rfl, mget_updAt_ne _ _ _ _ hk, hn] at hn'
        cases hn'
        exact ht
  | dispatcherSelected c did dname =>
      by_cases hk : k = c.coroutineId
      · subst hk
        simp [handleEvent, mget_updAt_self, hn] at hn'
        simpa [← hn'] using ht
      · rw [show handleEvent (VizEvent.dispatcherSelected c did dname) m =
            updAt m c.coroutineId _ from rfl, mget_updAt_ne _ _ _ _ hk, hn] at hn'
        cases hn'
        exact ht
  | other c =>
      rw [show handleEvent (VizEvent.other c) m = m from rfl, hn] at hn'
      cases hn'
      exact ht

/-- C1 witness: a coroutine.completed event re-applied to the terminal node
`a` leaves it terminal. -/
theorem C1_witness : isTerminal nodeATerminal.state = true :=
  C1_terminality_for_guarded_kinds (VizEvent.completed csA) mTerm "a"
    nodeATerminal nodeATerminal (by decide) (by decide) (by decide) (by decide)

/-- C3 counterexample: a coroutine.resumed event naming the unseen id `x`
leaves the empty map empty — no node is created for `x`, the event is
discarded. -/
theorem C3_counterexample :
    mget [] "x" = none ∧
    handleEvent (VizEvent.resumed csX) [] = [] ∧
    mget (handleEvent (VizEvent.resumed csX) []) "x" = none := by
  exact ⟨rfl, rfl, rfl⟩

/-- C3 amended: every handler except coroutine.created is guarded by a
lookup, so an event naming an id absent from the map leaves the map
unchanged (the event is discarded, not lazily materialized); the reducer is
a total function, so it never raises. -/
theorem C3_absent_id_event_is_noop (e : VizEvent) (m : NodeMap)
    (hnc : ∀ c, e ≠ VizEvent.created c)
    (habs : mget m e.base.coroutineId = none) :
    handleEvent e m = m := by
  cases e with
  | created c => exact absurd rfl (hnc c)
  | started c => exact updAt_of_mget_none m _ _ habs
  | suspended c => exact updAt_of_mget_none m _ _ habs
  | resumed c => exact updAt_of_mget_none m _ _ habs
  | bodyCompleted c => exact updAt_of_mget_none m _ _ habs
  | waitingForChildren c cnt ids => exact updAt_of_mget_none m _ _ habs
  | jobStateChanged c a co ca cc => exact updAt_of_mget_none m _ _ habs
  | completed c => exact updAt_of_mget_none m _ _ habs
  | cancelled c => exact updAt_of_mget_none m _ _ habs
  | failed c => exact updAt_of_mget_none m _ _ habs
  | threadAssigned c tid tname => exact updAt_of_mget_none m _ _ habs
  | dispatcherSelected c did dname => exact updAt_of_mget_none m _ _ habs
  | other c => rfl

/-- C3 witness: resumed on the unseen id `x` applied to the empty map. -/
theorem C3_witness : handleEvent (VizEvent.resumed csX) [] = [] :=
  C3_absent_id_event_is_noop (VizEvent.resumed csX) []
    (fun c h => VizEvent.noConfusion h) rfl

/-- C4 counterexample: on a CREATED node, JobStateChanged with
isActive = true, isCompleted = false, isCancelled = false and
childrenCount = 1 produces ACTIVE, where the claim's priority chain
(isActive ∧ childrenCount > 0) would produce WAITING_FOR_CHILDREN. -/
theorem C4_counterexample :
    stateAt (handleEvent (VizEvent.jobStateChanged csA true false false 1) mA) "a" =
      some CoroutineState.ACTIVE ∧
    some CoroutineState.ACTIVE ≠ some CoroutineState.WAITING_FOR_CHILDREN := by
  exact ⟨by decide, by decide⟩

/-- C4 amended: the JobStateChanged priority chain is
isCancelled > isCompleted > (NOT isActive ∧ childrenCount > 0 ⇒
WAITING_FOR_CHILDREN) > (isActive ⇒ ACTIVE) > unchanged — the
waiting-for-children branch fires on ¬isActive, not on isActive. -/
theorem C4_jobStateChanged_priority (m : NodeMap) (c : CoroutineFields)
    (a co ca : Bool) (cc : Int) (n : HierarchyNode)
    (h : mget m c.coroutineId = some n) :
    (ca = true →
      stateAt (handleEvent (VizEvent.jobStateChanged c a co ca cc) m) c.coroutineId =
        some CoroutineState.CANCELLED) ∧
    (ca = false → co = true →
      stateAt (handleEvent (VizEvent.jobStateChanged c a co ca cc) m) c.coroutineId =
        some CoroutineState.COMPLETED) ∧
    (ca = false → co = false → a = false → 0 < cc →
      stateAt (handleEvent (VizEvent.jobStateChanged c a co ca cc) m) c.coroutineId =
        some CoroutineState.WAITING_FOR_CHILDREN) ∧
    (ca = false → co = false → a = true →
      stateAt (handleEvent (VizEvent.jobStateChanged c a co ca cc) m) c.coroutineId =
        some CoroutineState.ACTIVE) ∧
    (ca = false → co = false → a = false → cc ≤ 0 →
      stateAt (handleEvent (VizEvent.jobStateChanged c a co ca cc) m) c.coroutineId =
        some n.state) := by
  refine ⟨fun hca => ?_, fun hca hco => ?_, fun hca hco ha hcc => ?_,
    fun hca hco ha => ?_, fun hca hco ha hcc => ?_⟩
  · subst hca
    simp [stateAt, handleEvent, mget_updAt_self, h]
  · subst hca; subst hco
    simp [stateAt, handleEvent, mget_updAt_self, h]
  · subst hca; subst hco; subst ha
    simp [stateAt, handleEvent, mget_updAt_self, h, hcc]
  · subst hca; subst hco; subst ha
    simp [stateAt, handleEvent, mget_updAt_self, h]
  · subst hca; subst hco; subst ha
    simp [stateAt, handleEvent, mget_updAt_self, h, not_lt.mpr hcc]

/-- C4 witness: isCancelled wins on the concrete node `a`. -/
theorem C4_witness :
    stateAt (handleEvent (VizEvent.jobStateChanged csA false false true 0) mA) "a" =
      some CoroutineState.CANCELLED :=
  (C4_jobStateChanged_priority mA csA false false true 0 (createdNode csA)
    (by decide)).1 rfl

/-- C2: Idempotent duplicate delivery — for every node map `m` and every
event `e`, applying `e` twice in succession yields a map identical to
applying `e` once; in particular re-applying a coroutine.created event on
the map it just produced changes nothing, and no accumulator double-counts. -/
theorem C2_apply_idempotent (e : VizEvent) (m : NodeMap) :
    handleEvent e (handleEvent e m) = handleEvent e m := by
  cases e with
  | created c =>
      by_cases hp : truthyStr c.parentCoroutineId = true
      · by_cases hpc : c.parentCoroutineId.getD "" = c.coroutineId
        · simp [handleEvent, hp, hpc, createdNode, mget_mset_self, mset_mset_self]
        · cases hg : mget (mset m c.coroutineId (createdNode c))
              (c.parentCoroutineId.getD "") with
          | none => simp [handleEvent, hp, hg, mset_mset_self]
          | some parent =>
              by_cases hmem : c.coroutineId ∈ parent.children
              · simp [handleEvent, hp, hg, hmem, mset_mset_self]
              · have hA : handleEvent (VizEvent.created c) m =
                    mset (mset m c.coroutineId (createdNode c))
                      (c.parentCoroutineId.getD "")
                      { parent with children := parent.children ++ [c.coroutineId] } := by
                  simp [handleEvent, hp, hg, hmem]
                have hk : mget (mset (mset m c.coroutineId (createdNode c))
                    (c.parentCoroutineId.getD "")
                    { parent with children := parent.children ++ [c.coroutineId] })
                    c.coroutineId = some (createdNode c) := by
                  rw [mget_mset_ne _ _ _ _ (Ne.symm hpc), mget_mset_self]
                rw [hA]
                simp [handleEvent, hp, mset_of_mget _ _ _ hk, mget_mset_self]
      · simp [handleEvent, hp, mset_mset_self]
  | started c => exact updAt_updAt_self _ _ _ (fun n => rfl)
  | suspended c => exact updAt_updAt_self _ _ _ (fun n => rfl)
  | resumed c => exact updAt_updAt_self _ _ _ (fun n => rfl)
  | bodyCompleted c =>
      cases h : mget m c.coroutineId with
      | none => simp [handleEvent, updAt, h]
      | some n =>
          have h1 : handleEvent (VizEvent.bodyCompleted c) m =
              mset m c.coroutineId
                { n with state := if n.children.any (childActive m) then
                    CoroutineState.WAITING_FOR_CHILDREN else n.state } := by
            simp [handleEvent, updAt, h]
          by_cases hA : n.children.any (childActive m) = true
          · rw [h1, if_pos hA]
            simp [handleEvent, updAt, mget_mset_self, mset_mset_self, ite_self]
          · have h2 : handleEvent (VizEvent.bodyCompleted c) m = m := by
              rw [h1, if_neg hA]
              exact mset_of_mget m c.coroutineId n h
            rw [h2, h2]
  | waitingForChildren c cnt ids => exact updAt_updAt_self _ _ _ (fun n => rfl)
  | jobStateChanged c isActive isCompleted isCancelled childrenCount =>
      apply updAt_updAt_self
      intro n
      cases isCancelled <;> cases isCompleted <;> cases isActive <;>
        by_cases hcc : childrenCount > 0 <;>
        by_cases hws : n.state = CoroutineState.WAITING_FOR_CHILDREN <;>
        simp [hcc, hws]
  | completed c => exact updAt_updAt_self _ _ _ (fun n => rfl)
  | cancelled c => exact updAt_updAt_self _ _ _ (fun n => rfl)
  | failed c => exact updAt_updAt_self _ _ _ (fun n => rfl)
  | threadAssigned c tid tname => exact updAt_updAt_self _ _ _ (fun n => rfl)
  | dispatcherSelected c did dname => exact updAt_updAt_self _ _ _ (fun n => rfl)
  | other c => rfl

/-- Fixtures for the WAITING_FOR_CHILDREN scenario: node A with children
B and C. -/
def cfA : CoroutineFields :=
  { sessionId := "s", seq := 1, tsNanos := 0, coroutineId := "A", jobId := "jA"
    parentCoroutineId := none, scopeId := "sc", label := none }

def cfB : CoroutineFields :=
  { sessionId := "s", seq := 2, tsNanos := 1, coroutineId := "B", jobId := "jB"
    parentCoroutineId := some "A", scopeId := "sc", label := none }

def cfC : CoroutineFields :=
  { sessionId := "s", seq := 3, tsNanos := 2, coroutineId := "C", jobId := "jC"
    parentCoroutineId := some "A", scopeId := "sc", label := none }

/-- C5 counterexample: with body-completed(A) applied before created(B) and
created(C) — the claim's order — A's children list is still empty at the
body-completed check, so A stays CREATED rather than entering
WAITING_FOR_CHILDREN (even granting the claim a preceding created(A),
without which A would not be in the map at all). -/
theorem C5_counterexample :
    stateAt (applyEvents [VizEvent.created cfA, VizEvent.bodyCompleted cfA,
      VizEvent.created cfB, VizEvent.created cfC] []) "A" = some CoroutineState.CREATED ∧
    some CoroutineState.CREATED ≠ some CoroutineState.WAITING_FOR_CHILDREN := by
  exact ⟨by decide, by decide⟩

/-- C5 amended: the scenario holds when body-completed(A) arrives after the
children exist: after created(A), created(B), created(C), body-completed(A)
A is WAITING_FOR_CHILDREN, and after then completed(B), completed(C) and
job-state-changed(A, isCompleted = true) A is COMPLETED. -/
theorem C5_waiting_scenario_reordered :
    stateAt (applyEvents [VizEvent.created cfA, VizEvent.created cfB,
      VizEvent.created cfC, VizEvent.bodyCompleted cfA] []) "A" =
      some CoroutineState.WAITING_FOR_CHILDREN ∧
    stateAt (applyEvents [VizEvent.created cfA, VizEvent.created cfB,
      VizEvent.created cfC, VizEvent.bodyCompleted cfA, VizEvent.completed cfB,
      VizEvent.completed cfC, VizEvent.jobStateChanged cfA false true false 0] []) "A" =
      some CoroutineState.COMPLETED := by
  exact ⟨by decide, by decide⟩

/-- C6: Order tolerance at the projection layer — for every pair of distinct
ids, applying created(child, parent = P) then created(P) to the empty map
yields, through `buildCoroutineTree`, the same hierarchy as the reverse
order (the node maps themselves differ in P's stored children list; the
tree builder regroups by parentId, which is where the spec's convergence
lives). -/
theorem C6_created_order_tolerance (c1 c2 : CoroutineFields) (child p : String)
    (hne : child ≠ p) (hp : p ≠ "")
    (h1 : c1.coroutineId = child) (h1p : c1.parentCoroutineId = some p)
    (h2 : c2.coroutineId = p) (h2p : c2.parentCoroutineId = none) :
    buildCoroutineTree (mapRecords
      (applyEvents [VizEvent.created c1, VizEvent.created c2] [])) =
    buildCoroutineTree (mapRecords
      (applyEvents [VizEvent.created c2, VizEvent.created c1] [])) := by
  obtain ⟨s1, q1, t1, ci1, j1, pc1, sc1, l1⟩ := c1
  obtain ⟨s2, q2, t2, ci2, j2, pc2, sc2, l2⟩ := c2
  simp only [CoroutineFields.mk.injEq] at h1 h1p h2 h2p
  subst h1 h1p h2 h2p
  simp [applyEvents, handleEvent, createdNode, truthyStr, hp, mget, mset,
    hne, Ne.symm hne, mapRecords, buildCoroutineTree, buildSubtree, hasId,
    List.filter, List.any]

/-- C6 witness: the two orders converge for child B under parent A. -/
theorem C6_witness :
    buildCoroutineTree (mapRecords
      (applyEvents [VizEvent.created cfB, VizEvent.created cfA] [])) =
    buildCoroutineTree (mapRecords
      (applyEvents [VizEvent.created cfA, VizEvent.created cfB] [])) :=
  C6_created_order_tolerance cfB cfA "B" "A" (by decide) (by decide) rfl rfl rfl rfl

/-! ## Active-children consistency (C7) -/

/-- Field `activeChildrenCount` equals `|activeChildrenIds|` whenever both fields
are present on the node. -/
def consistentNode (n : HierarchyNode) : Prop :=
  ∀ cnt ids, n.activeChildrenCount = some cnt → n.activeChildrenIds = some ids →
    cnt = (ids.length : Int)

/-- Every node of the map is consistent. -/
def consistentMap (m : NodeMap) : Prop :=
  ∀ k n, mget m k = some n → consistentNode n

/-- The two kinds whose handlers can write the two active-children fields
independently of each other. -/
def mayBreakConsistency : VizEvent → Bool
  | .jobStateChanged _ _ _ _ _ => true
  | .waitingForChildren _ _ _ => true
  | _ => false

theorem consistentMap_mset (m : NodeMap) (k : String) (v : HierarchyNode)
    (hm : consistentMap m) (hv : consistentNode v) : consistentMap (mset m k v) := by
  intro k' n' h'
  by_cases hk : k' = k
  · subst hk
    rw [mget_mset_self] at h'
    cases h'
    exact hv
  · rw [mget_mset_ne _ _ _ _ hk] at h'
    exact hm _ _ h'

theorem consistentMap_updAt (m : NodeMap) (k : String) (f : HierarchyNode → HierarchyNode)
    (hm : consistentMap m) (hf : ∀ n, consistentNode n → consistentNode (f n)) :
    consistentMap (updAt m k f) := by
  intro k' n' h'
  by_cases hk : k' = k
  · subst hk
    rw [mget_updAt_self] at h'
    cases hmm : mget m k' with
    | none => rw [hmm] at h'; cases h'
    | some n =>
        rw [hmm] at h'
        cases h'
        exact hf n (hm _ _ hmm)
  · rw [mget_updAt_ne _ _ _ _ hk] at h'
    exact hm _ _ h'

/-- C7 counterexample: from the freshly created node `a` (count 0, ids []),
JobStateChanged with childrenCount = 1 and isActive = false sets
activeChildrenCount to 1 without touching activeChildrenIds — both fields
present, 1 ≠ |[]|. -/
theorem C7_counterexample :
    (mget (handleEvent (VizEvent.jobStateChanged csA false false false 1) mA) "a").map
        (fun n => (n.activeChildrenCount, n.activeChildrenIds)) =
      some (some 1, some ([] : List String)) ∧
    (1 : Int) ≠ (([] : List String).length : Int) := by
  exact ⟨by decide, by decide⟩

/-- C7 amended: the count-equals-length consistency is established by
coroutine.created and the three terminal events and preserved by every
other kind except JobStateChanged (which overwrites the count from the
payload without touching the ids) and WaitingForChildren (which copies both
fields from an unvalidated payload); those two kinds can break it. -/
theorem C7_consistency_outside_breaking_kinds (e : VizEvent) (m : NodeMap)
    (hsafe : mayBreakConsistency e = false) (hm : consistentMap m) :
    consistentMap (handleEvent e m) := by
  cases e with
  | created c =>
      have hnn : consistentNode (createdNode c) := by
        intro cnt ids h1 h2
        simp [createdNode] at h1 h2
        simp [← h1, h2]
      have hm1 : consistentMap (mset m c.coroutineId (createdNode c)) :=
        consistentMap_mset _ _ _ hm hnn
      show consistentMap (if truthyStr c.parentCoroutineId = true then _ else _)
      by_cases hpt : truthyStr c.parentCoroutineId = true
      · rw [if_pos hpt]
        cases hg : mget (mset m c.coroutineId (createdNode c))
            (c.parentCoroutineId.getD "") with
        | none => exact hm1
        | some parent =>
            by_cases hmem : c.coroutineId ∈ parent.children
            · simp only [hmem, if_pos]
              exact hm1
            · simp only [hmem, if_neg, if_false]
              refine consistentMap_mset _ _ _ hm1 ?_
              intro cnt ids hc hi
              exact hm1 _ _ hg cnt ids hc hi
      · rw [if_neg hpt]
        exact hm1
  | started c =>
      exact consistentMap_updAt _ _ _ hm (fun n hn cnt ids hc hi => hn cnt ids hc hi)
  | suspended c =>
      exact consistentMap_updAt _ _ _ hm (fun n hn cnt ids hc hi => hn cnt ids hc hi)
  | resumed c =>
      exact consistentMap_updAt _ _ _ hm (fun n hn cnt ids hc hi => hn cnt ids hc hi)
  | bodyCompleted c =>
      exact consistentMap_updAt _ _ _ hm (fun n hn cnt ids hc hi => hn cnt ids hc hi)
  | waitingForChildren c cnt ids => simp [mayBreakConsistency] at hsafe
  | jobStateChanged c a co ca cc => simp [mayBreakConsistency] at hsafe
  | completed c =>
      refine consistentMap_updAt _ _ _ hm ?_
      intro n hn cnt ids hc hi
      simp at hc hi
      simp [← hc, hi]
  | cancelled c =>
      refine consistentMap_updAt _ _ _ hm ?_
      intro n hn cnt ids hc hi
      simp at hc hi
      simp [← hc, hi]
  | failed c =>
      refine consistentMap_updAt _ _ _ hm ?_
      intro n hn cnt ids hc hi
      simp at hc hi
      simp [← hc, hi]
  | threadAssigned c tid tname =>
      exact consistentMap_updAt _ _ _ hm (fun n hn cnt ids hc hi => hn cnt ids hc hi)
  | dispatcherSelected c did dname =>
      exact consistentMap_updAt _ _ _ hm (fun n hn cnt ids hc hi => hn cnt ids hc hi)
  | other c => exact hm

/-- C7 witness: a created event applied to the empty map yields a
consistent map. -/
theorem C7_witness : consistentMap (handleEvent (VizEvent.created csA) []) :=
  C7_consistency_outside_breaking_kinds (VizEvent.created csA) [] rfl
    (fun k n h => by simp [mget] at h)

/-! ## Duplicate-free children lists (C10) -/

/-- Every children list stored in the map is duplicate-free. -/
def childrenNodup (m : NodeMap) : Prop :=
  ∀ k n, mget m k = some n → n.children.Nodup

theorem childrenNodup_mset (m : NodeMap) (k : String) (v : HierarchyNode)
    (hm : childrenNodup m) (hv : v.children.Nodup) : childrenNodup (mset m k v) := by
  intro k' n' h'
  by_cases hk : k' = k
  · subst hk
    rw [mget_mset_self] at h'
    cases h'
    exact hv
  · rw [mget_mset_ne _ _ _ _ hk] at h'
    exact hm _ _ h'

theorem childrenNodup_updAt (m : NodeMap) (k : String) (f : HierarchyNode → HierarchyNode)
    (hm : childrenNodup m) (hf : ∀ n, n.children.Nodup → (f n).children.Nodup) :
    childrenNodup (updAt m k f) := by
  intro k' n' h'
  by_cases hk : k' = k
  · subst hk
    rw [mget_updAt_self] at h'
    cases hmm : mget m k' with
    | none => rw [hmm] at h'; cases h'
    | some n =>
        rw [hmm] at h'
        cases h'
        exact hf n (hm _ _ hmm)
  · rw [mget_updAt_ne _ _ _ _ hk] at h'
    exact hm _ _ h'

theorem childrenNodup_handleEvent (e : VizEvent) (m : NodeMap)
    (hm : childrenNodup m) : childrenNodup (handleEvent e m) := by
  cases e with
  | created c =>
      have hm1 : childrenNodup (mset m c.coroutineId (createdNode c)) :=
        childrenNodup_mset _ _ _ hm (by simp [createdNode])
      show childrenNodup (if truthyStr c.parentCoroutineId = true then _ else _)
      by_cases hpt : truthyStr c.parentCoroutineId = true
      · rw [if_pos hpt]
        cases hg : mget (mset m c.coroutineId (createdNode c))
            (c.parentCoroutineId.getD "") with
        | none => exact hm1
        | some parent =>
            by_cases hmem : c.coroutineId ∈ parent.children
            · simp only [hmem, if_pos]
              exact hm1
            · simp only [hmem, if_neg, if_false]
              refine childrenNodup_mset _ _ _ hm1 ?_
              have hpar : parent.children.Nodup := hm1 _ _ hg
              simp [List.nodup_append, hpar, hmem]
      · rw [if_neg hpt]
        exact hm1
  | started c => exact childrenNodup_updAt _ _ _ hm (fun n hn => hn)
  | suspended c => exact childrenNodup_updAt _ _ _ hm (fun n hn => hn)
  | resumed c => exact childrenNodup_updAt _ _ _ hm (fun n hn => hn)
  | bodyCompleted c => exact childrenNodup_updAt _ _ _ hm (fun n hn => hn)
  | waitingForChildren c cnt ids => exact childrenNodup_updAt _ _ _ hm (fun n hn => hn)
  | jobStateChanged c a co ca cc => exact childrenNodup_updAt _ _ _ hm (fun n hn => hn)
  | completed c => exact childrenNodup_updAt _ _ _ hm (fun n hn => hn)
  | cancelled c => exact childrenNodup_updAt _ _ _ hm (fun n hn => hn)
  | failed c => exact childrenNodup_updAt _ _ _ hm (fun n hn => hn)
  | threadAssigned c tid tname => exact childrenNodup_updAt _ _ _ hm (fun n hn => hn)
  | dispatcherSelected c did dname => exact childrenNodup_updAt _ _ _ hm (fun n hn => hn)
  | other c => exact hm

/-- C10: for every sequence of events applied to a map whose children lists
are duplicate-free (in particular the empty map), every node's children
list remains duplicate-free — created appends a child id to its parent's
children only when absent, and no other kind modifies a children list. -/
theorem C10_children_nodup_invariant (es : List VizEvent) (m : NodeMap)
    (hm : childrenNodup m) : childrenNodup (applyEvents es m) := by
  induction es generalizing m with
  | nil => exact hm
  | cons e es ih => exact ih _ (childrenNodup_handleEvent e m hm)

/-- C10 witness: the scenario stream of C5 applied to the empty map keeps
all children lists duplicate-free. -/
theorem C10_witness :
    childrenNodup (applyEvents [VizEvent.created cfA, VizEvent.created cfB,
      VizEvent.created cfC, VizEvent.bodyCompleted cfA] []) :=
  C10_children_nodup_invariant _ [] (fun k n h => by simp [mget] at h)

/-! ## Normalizer contract (C8) -/

theorem lookup_mem_of_eq_some (l : List (String × String)) (t k : String)
    (h : l.lookup t = some k) : (t, k) ∈ l := by
  induction l with
  | nil => simp [List.lookup] at h
  | cons p rest ih =>
      obtain ⟨a, b⟩ := p
      by_cases hat : t = a
      · subst hat
        simp [List.lookup] at h
        simp [h]
      · have hba : (t == a) = false := by simp [hat]
        simp [List.lookup, hba] at h
        exact List.mem_cons_of_mem _ (ih h)

theorem eventTypeToKind_ne_empty (t : String) (ht : t ≠ "") : eventTypeToKind t ≠ "" := by
  unfold eventTypeToKind
  cases hlk : EVENT_TYPE_TO_KIND.lookup t with
  | none => exact ht
  | some k =>
      have hmem : (t, k) ∈ EVENT_TYPE_TO_KIND := lookup_mem_of_eq_some _ _ _ hlk
      have hall : ∀ x ∈ EVENT_TYPE_TO_KIND, x.2 ≠ "" := by decide
      exact hall _ hmem

/-- C8 counterexample: a raw record carrying neither `kind` nor `type` is
returned as-is, with `kind` still null — `normalizeEvent` does not
guarantee a non-null `kind` on every record. -/
theorem C8_counterexample :
    (normalizeEvent { kind := none, type := none, fields := [] }).kind = none := rfl

/-- C8 amended: `normalizeEvent` never throws (it is a total function); a
record with truthy `kind` is returned unchanged; a record with falsy `kind`
and truthy `type` gets `kind` substituted from the fixed lookup table (or
the type string verbatim when unrecognized, hence truthy) with the legacy
`type` field removed and all other fields kept; a record carrying neither
passes through unchanged, so the non-null-kind guarantee holds only for
records carrying a truthy `kind` or `type`. -/
theorem C8_normalizer_contract (e : RawRecord) :
    (truthyStr e.kind = true → normalizeEvent e = e) ∧
    (truthyStr e.kind = false → truthyStr e.type = false → normalizeEvent e = e) ∧
    (truthyStr e.kind = false → truthyStr e.type = true →
      (normalizeEvent e).type = none ∧
      (normalizeEvent e).fields = e.fields ∧
      (normalizeEvent e).kind = some (eventTypeToKind (e.type.getD "")) ∧
      truthyStr (normalizeEvent e).kind = true) := by
  refine ⟨fun hk => ?_, fun hk ht => ?_, fun hk ht => ?_⟩
  · simp [normalizeEvent, hk]
  · simp [normalizeEvent, hk, ht]
  · refine ⟨?_, ?_, ?_, ?_⟩
    · simp [normalizeEvent, hk, ht]
    · simp [normalizeEvent, hk, ht]
    · simp [normalizeEvent, hk, ht]
    · have hkind : (normalizeEvent e).kind = some (eventTypeToKind (e.type.getD "")) := by
        simp [normalizeEvent, hk, ht]
      cases hty : e.type with
      | none => rw [hty] at ht; simp [truthyStr] at ht
      | some t =>
          have htt : t ≠ "" := by rw [hty] at ht; simpa [truthyStr] using ht
          rw [hkind, hty]
          simpa [truthyStr] using eventTypeToKind_ne_empty t htt

/-- A raw record in the legacy wire format. -/
def rawLegacy : RawRecord :=
  { kind := none, type := some "CoroutineCreated", fields := [("seq", "1")] }

/-- C8 witness: the legacy record gets its `type` field removed. -/
theorem C8_witness : (normalizeEvent rawLegacy).type = none :=
  ((C8_normalizer_contract rawLegacy).2.2 rfl rfl).1

/-! ## Timeline percentage totality (C9) -/

/-- C9: activePercent and suspendedPercent are the time fields divided by
totalDuration (times 100) when totalDuration is positive, and are 0 when
totalDuration is 0 (the division branch is guarded off, so no NaN can
arise); the undefined-timeline branch also returns 0 for both. -/
theorem C9_percent_totality (t : CoroutineTimeline) :
    (t.totalDuration = 0 →
      (useTimelineStats (some t)).activePercent = 0 ∧
      (useTimelineStats (some t)).suspendedPercent = 0) ∧
    (0 < t.totalDuration →
      (useTimelineStats (some t)).activePercent =
        t.activeTime / t.totalDuration * 100 ∧
      (useTimelineStats (some t)).suspendedPercent =
        t.suspendedTime / t.totalDuration * 100) ∧
    (useTimelineStats none).activePercent = 0 ∧
    (useTimelineStats none).suspendedPercent = 0 := by
  refine ⟨fun h0 => ?_, fun hpos => ?_, rfl, rfl⟩
  · constructor <;> simp [useTimelineStats, h0]
  · constructor <;> simp [useTimelineStats, hpos]

/-- The spec's timeline-law fixture: total 200, active 150, suspended 50. -/
def tlLaw : CoroutineTimeline :=
  { totalDuration := 200, activeTime := 150, suspendedTime := 50, events := [] }

/-- C9 witness: on the spec's timeline-law fixture the percentages are
75% and 25%. -/
theorem C9_witness :
    (useTimelineStats (some tlLaw)).activePercent = 75 ∧
    (useTimelineStats (some tlLaw)).suspendedPercent = 25 := by
  have h := (C9_percent_totality tlLaw).2.1 (by norm_num [tlLaw])
  rw [h.1, h.2]
  norm_num [tlLaw]

end Vizcor
